import Mathlib

/-!
# Verification of the `aadiff` amino-acid difference table tool

A shallow embedding of `src/main.rs` of CDCgov/aadiff: the valid-range
resolver, the per-position diff scan, the delimited output, and the static
ambiguity-codon table `GC3`, together with theorems checking the
natural-language specification against this embedding.

Bytes of the Rust `u8` sequences are modelled as `Char` (all data is ASCII);
fallible slice indexing (which panics in Rust) is modelled with `Option`;
`std::process::exit` in the middle of the pipeline is modelled with
`Except String`.
-/

/-- The iterator method `position`: index of the first element satisfying `p`
(`aa.iter().position(p)` in `get_valid_range`). -/
def position (p : Char → Bool) : List Char → Option Nat
  | [] => none
  | c :: rest => if p c then some 0 else (position p rest).map (· + 1)

/-- The iterator method `rposition`: index (from the front) of the last element
satisfying `p` (`aa.iter().rposition(p)` in `get_valid_range`). -/
def rposition (p : Char → Bool) : List Char → Option Nat
  | [] => none
  | c :: rest =>
    match rposition p rest with
    | some j => some (j + 1)
    | none => if p c then some 0 else none

/-- The predicate `|&aa| aa != b'X' && aa != b'-'` of `get_valid_range`:
a residue that is resolvable, neither unresolved nor a gap. -/
def resolvable (c : Char) : Bool :=
  c ≠ 'X' && c ≠ '-'

/-- The function `get_valid_range` from the source. The pair is the half-open range
`s..e`; `none` models the `std::process::exit(1)` taken when restriction
is on and no residue other than `X`/`-` exists. -/
def get_valid_range (aa : List Char) (restrict : Bool) : Option (Nat × Nat) :=
  if restrict then
    match position resolvable aa, rposition resolvable aa with
    | some s, some e => some (s, e + 1)
    | _, _ => none
  else
    some (0, aa.length)

/-- The `ValidSeq` record from the source. -/
structure ValidSeq where
  name : String
  residues : List Char
  codons : List Char
  valid_range : Nat × Nat
  deriving Repr, DecidableEq

/-- The recoding `sequence.replace_all_bytes(b'~', b'X')` applied to translated residues. -/
def replace_all_bytes (old new : Char) (l : List Char) : List Char :=
  l.map fun c => if c = old then new else c

/-- A record as handed over by the external reader/translator collaborator:
a name, the translated residues, and the source nucleotides. -/
structure RawRecord where
  name : String
  residues : List Char
  codons : List Char
  deriving Repr, DecidableEq

/-- Fallible map, the `collect::<Result<Vec<_>, _>>` pattern of the source:
the whole result is `none` as soon as one element fails. -/
def mapOption (f : α → Option β) : List α → Option (List β)
  | [] => some []
  | a :: t =>
    match f a, mapOption f t with
    | some b, some bs => some (b :: bs)
    | _, _ => none

/-- Lines 86–97 of the source: recode `~` to `X`, compute the valid range
(`none` when `get_valid_range` aborts the process). -/
def mkValidSeq (restrict : Bool) (r : RawRecord) : Option ValidSeq :=
  let residues := replace_all_bytes '~' 'X' r.residues
  (get_valid_range residues restrict).map fun vr =>
    { name := r.name, residues := residues, codons := r.codons, valid_range := vr }

/-- The display token pushed for a differing in-range query (lines 126–135):
`del` for a gap, the `GC3` degeneracy label for an `X` whose codon is
registered, otherwise the residue letter itself (which is the literal `X`
when the residue is `X` and the codon is unregistered). `GC3get` is defined
below with the table; it is a parameter here. -/
def displayToken (gc3 : List Char → Option String) (aa : Char) (codon : List Char) : String :=
  if aa = '-' then "del"
  else if aa = 'X' then
    match gc3 codon with
    | some degen => degen
    | none => String.singleton aa
  else String.singleton aa

/-- Lines 120–140 of the source, for one query at scan offset `i`: read
`residues[i]` and the codon bytes `codons[3i], codons[3i+1], codons[3i+2]`
(`none` models the panic when any index is out of bounds), then produce the
field: the display token when `i` is in the query's valid range and the
residue differs from `ref_aa`, the empty string otherwise. -/
def queryEntry (gc3 : List Char → Option String) (ref_aa : Char) (i : Nat)
    (q : ValidSeq) : Option String :=
  match q.residues[i]?, q.codons[i * 3]?, q.codons[i * 3 + 1]?, q.codons[i * 3 + 2]? with
  | some aa, some c0, some c1, some c2 =>
    if q.valid_range.1 ≤ i ∧ i < q.valid_range.2 ∧ ref_aa ≠ aa then
      some (displayToken gc3 aa [c0, c1, c2])
    else
      some ""
  | _, _, _, _ => none

/-- One row of the difference table: 1-based position, reference residue,
and one field per query in input order (`""` is an empty field). -/
structure DiffRow where
  position : Nat
  ref_aa : Char
  fields : List String
  deriving Repr, DecidableEq

/-- The scan of lines 108–146: enumerate the slice of the reference residues
selected by the reference's valid range, compute every query's field, and
keep exactly the positions where some field is non-empty. `none` models an
out-of-bounds panic inside the loop. -/
def diffRows (gc3 : List Char → Option String) (refres : List Char)
    (rng : Nat × Nat) (qs : List ValidSeq) : Option (List DiffRow) :=
  let slice := (refres.drop rng.1).take (rng.2 - rng.1)
  (mapOption (fun p =>
      (mapOption (queryEntry gc3 p.2 p.1) qs).map fun fields =>
        { position := p.1 + 1, ref_aa := p.2, fields := fields : DiffRow })
    slice.enum).map
    (·.filter fun r => r.fields.any (· ≠ ""))

/-- Lines 101–105: the header buffer `,{reference.name}` followed by
`,{query.name}` for every query in input order. -/
def headerLine (refName : String) (queryNames : List String) : String :=
  queryNames.foldl (fun b n => b ++ "," ++ n) ("," ++ refName)

/-- Lines 124, 136, 139: the delimited rendering of one field, `,` when the
field is empty and `,"token"` when it differs. -/
def renderField (f : String) : String :=
  if f = "" then "," else "," ++ "\"" ++ f ++ "\""

/-- Line 144: `{p},{aa}{buffer}` followed by the configured line ending and
the newline `writeln!` appends. -/
def renderRow (lineEnding : String) (r : DiffRow) : String :=
  toString r.position ++ "," ++ String.singleton r.ref_aa ++
    String.join (r.fields.map renderField) ++ lineEnding ++ "\n"

/-- The pipeline of `main` after argument/stream handling, lines 47–148:
take the translated records in input order (first one is the reference),
compute valid ranges (aborting like `get_valid_range` does), emit the header
line and then the rendered diff rows. `Except.error` carries the diagnostic
of the abort path taken; nothing is output on any error. -/
def runAPD (gc3 : List Char → Option String) (restrict unixLineEndings : Bool)
    (records : List RawRecord) : Except String (List String) :=
  let lineEnding := if unixLineEndings then "" else "\r"
  match records with
  | [] => .error "No first record available!"
  | refRec :: rest =>
    let refResidues := replace_all_bytes '~' 'X' refRec.residues
    match get_valid_range refResidues restrict with
    | none => .error "Sequence doesn't contain valid data for comparison."
    | some refRange =>
      match mapOption (mkValidSeq restrict) rest with
      | none => .error "Sequence doesn't contain valid data for comparison."
      | some queries =>
        let header := headerLine refRec.name (queries.map (·.name)) ++ lineEnding ++ "\n"
        match diffRows gc3 refResidues refRange queries with
        | none => .error "index out of range"
        | some rows => .ok (header :: rows.map (renderRow lineEnding))
/-- The static ambiguity table `GC3` from the source, as an association list
from codon pattern to degeneracy label, in the order the source inserts them. -/
def gc3Entries : List (String × String) := [
  ("AAB", "K/N"), ("AAD", "K/N"), ("AAH", "K/N"), ("AAK", "K/N"), ("AAM", "K/N"),
  ("AAN", "K/N"), ("AAS", "K/N"), ("AAV", "K/N"), ("AAW", "K/N"), ("ABA", "I/R/T"),
  ("ABC", "I/S/T"), ("ABG", "M/R/T"), ("ABT", "I/S/T"), ("ABY", "I/S/T"), ("ADA", "I/K/R"),
  ("ADC", "I/N/S"), ("ADG", "K/M/R"), ("ADT", "I/N/S"), ("ADY", "I/N/S"), ("AGB", "R/S"),
  ("AGD", "R/S"), ("AGH", "R/S"), ("AGK", "R/S"), ("AGM", "R/S"), ("AGN", "R/S"),
  ("AGS", "R/S"), ("AGV", "R/S"), ("AGW", "R/S"), ("AHA", "I/K/T"), ("AHC", "I/N/T"),
  ("AHG", "K/M/T"), ("AHT", "I/N/T"), ("AHY", "I/N/T"), ("AKA", "I/R"), ("AKC", "I/S"),
  ("AKG", "M/R"), ("AKH", "I/R/S"), ("AKM", "I/R/S"), ("AKR", "I/M/R"), ("AKT", "I/S"),
  ("AKW", "I/R/S"), ("AKY", "I/S"), ("AMA", "K/T"), ("AMB", "K/N/T"), ("AMC", "N/T"),
  ("AMD", "K/N/T"), ("AMG", "K/T"), ("AMH", "K/N/T"), ("AMK", "K/N/T"), ("AMM", "K/N/T"),
  ("AMN", "K/N/T"), ("AMR", "K/T"), ("AMS", "K/N/T"), ("AMT", "N/T"), ("AMV", "K/N/T"),
  ("AMW", "K/N/T"), ("AMY", "N/T"), ("ARA", "K/R"), ("ARC", "N/S"), ("ARG", "K/R"),
  ("ARR", "K/R"), ("ART", "N/S"), ("ARY", "N/S"), ("ASA", "R/T"), ("ASB", "R/S/T"),
  ("ASC", "S/T"), ("ASD", "R/S/T"), ("ASG", "R/T"), ("ASH", "R/S/T"), ("ASK", "R/S/T"),
  ("ASM", "R/S/T"), ("ASN", "R/S/T"), ("ASR", "R/T"), ("ASS", "R/S/T"), ("AST", "S/T"),
  ("ASV", "R/S/T"), ("ASW", "R/S/T"), ("ASY", "S/T"), ("ATB", "I/M"), ("ATD", "I/M"),
  ("ATK", "I/M"), ("ATN", "I/M"), ("ATR", "I/M"), ("ATS", "I/M"), ("ATV", "I/M"),
  ("AVA", "K/R/T"), ("AVC", "N/S/T"), ("AVG", "K/R/T"), ("AVR", "K/R/T"), ("AVT", "N/S/T"),
  ("AVY", "N/S/T"), ("AWA", "I/K"), ("AWC", "I/N"), ("AWG", "K/M"), ("AWH", "I/K/N"),
  ("AWM", "I/K/N"), ("AWR", "I/K/M"), ("AWT", "I/N"), ("AWW", "I/K/N"), ("AWY", "I/N"),
  ("AYA", "I/T"), ("AYB", "I/M/T"), ("AYC", "I/T"), ("AYD", "I/M/T"), ("AYG", "M/T"),
  ("AYH", "I/T"), ("AYK", "I/M/T"), ("AYM", "I/T"), ("AYN", "I/M/T"), ("AYR", "I/M/T"),
  ("AYS", "I/M/T"), ("AYT", "I/T"), ("AYV", "I/M/T"), ("AYW", "I/T"), ("AYY", "I/T"),
  ("BAA", "E/Q/*"), ("BAC", "D/H/Y"), ("BAG", "E/Q/*"), ("BAR", "E/Q/*"), ("BAT", "D/H/Y"),
  ("BAY", "D/H/Y"), ("BCA", "A/P/S"), ("BCB", "A/P/S"), ("BCC", "A/P/S"), ("BCD", "A/P/S"),
  ("BCG", "A/P/S"), ("BCH", "A/P/S"), ("BCK", "A/P/S"), ("BCM", "A/P/S"), ("BCN", "A/P/S"),
  ("BCR", "A/P/S"), ("BCS", "A/P/S"), ("BCT", "A/P/S"), ("BCV", "A/P/S"), ("BCW", "A/P/S"),
  ("BCY", "A/P/S"), ("BGA", "G/R/*"), ("BGC", "C/G/R"), ("BGG", "G/R/W"), ("BGT", "C/G/R"),
  ("BGY", "C/G/R"), ("BTA", "L/V"), ("BTB", "F/L/V"), ("BTC", "F/L/V"), ("BTD", "F/L/V"),
  ("BTG", "L/V"), ("BTH", "F/L/V"), ("BTK", "F/L/V"), ("BTM", "F/L/V"), ("BTN", "F/L/V"),
  ("BTR", "L/V"), ("BTS", "F/L/V"), ("BTT", "F/L/V"), ("BTV", "F/L/V"), ("BTW", "F/L/V"),
  ("BTY", "F/L/V"), ("CAB", "H/Q"), ("CAD", "H/Q"), ("CAH", "H/Q"), ("CAK", "H/Q"),
  ("CAM", "H/Q"), ("CAN", "H/Q"), ("CAS", "H/Q"), ("CAV", "H/Q"), ("CAW", "H/Q"),
  ("CBA", "L/P/R"), ("CBB", "L/P/R"), ("CBC", "L/P/R"), ("CBD", "L/P/R"), ("CBG", "L/P/R"),
  ("CBH", "L/P/R"), ("CBK", "L/P/R"), ("CBM", "L/P/R"), ("CBN", "L/P/R"), ("CBR", "L/P/R"),
  ("CBS", "L/P/R"), ("CBT", "L/P/R"), ("CBV", "L/P/R"), ("CBW", "L/P/R"), ("CBY", "L/P/R"),
  ("CDA", "L/Q/R"), ("CDC", "H/L/R"), ("CDG", "L/Q/R"), ("CDR", "L/Q/R"), ("CDT", "H/L/R"),
  ("CDY", "H/L/R"), ("CHA", "L/P/Q"), ("CHC", "H/L/P"), ("CHG", "L/P/Q"), ("CHR", "L/P/Q"),
  ("CHT", "H/L/P"), ("CHY", "H/L/P"), ("CKA", "L/R"), ("CKB", "L/R"), ("CKC", "L/R"),
  ("CKD", "L/R"), ("CKG", "L/R"), ("CKH", "L/R"), ("CKK", "L/R"), ("CKM", "L/R"),
  ("CKN", "L/R"), ("CKR", "L/R"), ("CKS", "L/R"), ("CKT", "L/R"), ("CKV", "L/R"),
  ("CKW", "L/R"), ("CKY", "L/R"), ("CMA", "P/Q"), ("CMB", "H/P/Q"), ("CMC", "H/P"),
  ("CMD", "H/P/Q"), ("CMG", "P/Q"), ("CMH", "H/P/Q"), ("CMK", "H/P/Q"), ("CMM", "H/P/Q"),
  ("CMN", "H/P/Q"), ("CMR", "P/Q"), ("CMS", "H/P/Q"), ("CMT", "H/P"), ("CMV", "H/P/Q"),
  ("CMW", "H/P/Q"), ("CMY", "H/P"), ("CRA", "Q/R"), ("CRB", "H/Q/R"), ("CRC", "H/R"),
  ("CRD", "H/Q/R"), ("CRG", "Q/R"), ("CRH", "H/Q/R"), ("CRK", "H/Q/R"), ("CRM", "H/Q/R"),
  ("CRN", "H/Q/R"), ("CRR", "Q/R"), ("CRS", "H/Q/R"), ("CRT", "H/R"), ("CRV", "H/Q/R"),
  ("CRW", "H/Q/R"), ("CRY", "H/R"), ("CSA", "P/R"), ("CSB", "P/R"), ("CSC", "P/R"),
  ("CSD", "P/R"), ("CSG", "P/R"), ("CSH", "P/R"), ("CSK", "P/R"), ("CSM", "P/R"),
  ("CSN", "P/R"), ("CSR", "P/R"), ("CSS", "P/R"), ("CST", "P/R"), ("CSV", "P/R"),
  ("CSW", "P/R"), ("CSY", "P/R"), ("CVA", "P/Q/R"), ("CVC", "H/P/R"), ("CVG", "P/Q/R"),
  ("CVR", "P/Q/R"), ("CVT", "H/P/R"), ("CVY", "H/P/R"), ("CWA", "L/Q"), ("CWB", "H/L/Q"),
  ("CWC", "H/L"), ("CWD", "H/L/Q"), ("CWG", "L/Q"), ("CWH", "H/L/Q"), ("CWK", "H/L/Q"),
  ("CWM", "H/L/Q"), ("CWN", "H/L/Q"), ("CWR", "L/Q"), ("CWS", "H/L/Q"), ("CWT", "H/L"),
  ("CWV", "H/L/Q"), ("CWW", "H/L/Q"), ("CWY", "H/L"), ("CYA", "L/P"), ("CYB", "L/P"),
  ("CYC", "L/P"), ("CYD", "L/P"), ("CYG", "L/P"), ("CYH", "L/P"), ("CYK", "L/P"),
  ("CYM", "L/P"), ("CYN", "L/P"), ("CYR", "L/P"), ("CYS", "L/P"), ("CYT", "L/P"),
  ("CYV", "L/P"), ("CYW", "L/P"), ("CYY", "L/P"), ("DAA", "E/K/*"), ("DAC", "D/N/Y"),
  ("DAG", "E/K/*"), ("DAR", "E/K/*"), ("DAT", "D/N/Y"), ("DAY", "D/N/Y"), ("DCA", "A/S/T"),
  ("DCB", "A/S/T"), ("DCC", "A/S/T"), ("DCD", "A/S/T"), ("DCG", "A/S/T"), ("DCH", "A/S/T"),
  ("DCK", "A/S/T"), ("DCM", "A/S/T"), ("DCN", "A/S/T"), ("DCR", "A/S/T"), ("DCS", "A/S/T"),
  ("DCT", "A/S/T"), ("DCV", "A/S/T"), ("DCW", "A/S/T"), ("DCY", "A/S/T"), ("DGA", "G/R/*"),
  ("DGC", "C/G/S"), ("DGG", "G/R/W"), ("DGT", "C/G/S"), ("DGY", "C/G/S"), ("DTA", "I/L/V"),
  ("DTC", "F/I/V"), ("DTG", "L/M/V"), ("DTT", "F/I/V"), ("DTY", "F/I/V"), ("GAB", "D/E"),
  ("GAD", "D/E"), ("GAH", "D/E"), ("GAK", "D/E"), ("GAM", "D/E"), ("GAN", "D/E"),
  ("GAS", "D/E"), ("GAV", "D/E"), ("GAW", "D/E"), ("GBA", "A/G/V"), ("GBB", "A/G/V"),
  ("GBC", "A/G/V"), ("GBD", "A/G/V"), ("GBG", "A/G/V"), ("GBH", "A/G/V"), ("GBK", "A/G/V"),
  ("GBM", "A/G/V"), ("GBN", "A/G/V"), ("GBR", "A/G/V"), ("GBS", "A/G/V"), ("GBT", "A/G/V"),
  ("GBV", "A/G/V"), ("GBW", "A/G/V"), ("GBY", "A/G/V"), ("GDA", "E/G/V"), ("GDC", "D/G/V"),
  ("GDG", "E/G/V"), ("GDR", "E/G/V"), ("GDT", "D/G/V"), ("GDY", "D/G/V"), ("GHA", "A/E/V"),
  ("GHC", "A/D/V"), ("GHG", "A/E/V"), ("GHR", "A/E/V"), ("GHT", "A/D/V"), ("GHY", "A/D/V"),
  ("GKA", "G/V"), ("GKB", "G/V"), ("GKC", "G/V"), ("GKD", "G/V"), ("GKG", "G/V"),
  ("GKH", "G/V"), ("GKK", "G/V"), ("GKM", "G/V"), ("GKN", "G/V"), ("GKR", "G/V"),
  ("GKS", "G/V"), ("GKT", "G/V"), ("GKV", "G/V"), ("GKW", "G/V"), ("GKY", "G/V"),
  ("GMA", "A/E"), ("GMB", "A/D/E"), ("GMC", "A/D"), ("GMD", "A/D/E"), ("GMG", "A/E"),
  ("GMH", "A/D/E"), ("GMK", "A/D/E"), ("GMM", "A/D/E"), ("GMN", "A/D/E"), ("GMR", "A/E"),
  ("GMS", "A/D/E"), ("GMT", "A/D"), ("GMV", "A/D/E"), ("GMW", "A/D/E"), ("GMY", "A/D"),
  ("GRA", "E/G"), ("GRB", "D/E/G"), ("GRC", "D/G"), ("GRD", "D/E/G"), ("GRG", "E/G"),
  ("GRH", "D/E/G"), ("GRK", "D/E/G"), ("GRM", "D/E/G"), ("GRN", "D/E/G"), ("GRR", "E/G"),
  ("GRS", "D/E/G"), ("GRT", "D/G"), ("GRV", "D/E/G"), ("GRW", "D/E/G"), ("GRY", "D/G"),
  ("GSA", "A/G"), ("GSB", "A/G"), ("GSC", "A/G"), ("GSD", "A/G"), ("GSG", "A/G"),
  ("GSH", "A/G"), ("GSK", "A/G"), ("GSM", "A/G"), ("GSN", "A/G"), ("GSR", "A/G"),
  ("GSS", "A/G"), ("GST", "A/G"), ("GSV", "A/G"), ("GSW", "A/G"), ("GSY", "A/G"),
  ("GVA", "A/E/G"), ("GVC", "A/D/G"), ("GVG", "A/E/G"), ("GVR", "A/E/G"), ("GVT", "A/D/G"),
  ("GVY", "A/D/G"), ("GWA", "E/V"), ("GWB", "D/E/V"), ("GWC", "D/V"), ("GWD", "D/E/V"),
  ("GWG", "E/V"), ("GWH", "D/E/V"), ("GWK", "D/E/V"), ("GWM", "D/E/V"), ("GWN", "D/E/V"),
  ("GWR", "E/V"), ("GWS", "D/E/V"), ("GWT", "D/V"), ("GWV", "D/E/V"), ("GWW", "D/E/V"),
  ("GWY", "D/V"), ("GYA", "A/V"), ("GYB", "A/V"), ("GYC", "A/V"), ("GYD", "A/V"),
  ("GYG", "A/V"), ("GYH", "A/V"), ("GYK", "A/V"), ("GYM", "A/V"), ("GYN", "A/V"),
  ("GYR", "A/V"), ("GYS", "A/V"), ("GYT", "A/V"), ("GYV", "A/V"), ("GYW", "A/V"),
  ("GYY", "A/V"), ("HAA", "K/Q/*"), ("HAC", "H/N/Y"), ("HAG", "K/Q/*"), ("HAR", "K/Q/*"),
  ("HAT", "H/N/Y"), ("HAY", "H/N/Y"), ("HCA", "P/S/T"), ("HCB", "P/S/T"), ("HCC", "P/S/T"),
  ("HCD", "P/S/T"), ("HCG", "P/S/T"), ("HCH", "P/S/T"), ("HCK", "P/S/T"), ("HCM", "P/S/T"),
  ("HCN", "P/S/T"), ("HCR", "P/S/T"), ("HCS", "P/S/T"), ("HCT", "P/S/T"), ("HCV", "P/S/T"),
  ("HCW", "P/S/T"), ("HCY", "P/S/T"), ("HGA", "R/*"), ("HGC", "C/R/S"), ("HGG", "R/W"),
  ("HGR", "R/W/*"), ("HGT", "C/R/S"), ("HGY", "C/R/S"), ("HTA", "I/L"), ("HTC", "F/I/L"),
  ("HTG", "L/M"), ("HTH", "F/I/L"), ("HTM", "F/I/L"), ("HTR", "I/L/M"), ("HTT", "F/I/L"),
  ("HTW", "F/I/L"), ("HTY", "F/I/L"), ("KAA", "E/*"), ("KAC", "D/Y"), ("KAG", "E/*"),
  ("KAR", "E/*"), ("KAT", "D/Y"), ("KAY", "D/Y"), ("KCA", "A/S"), ("KCB", "A/S"),
  ("KCC", "A/S"), ("KCD", "A/S"), ("KCG", "A/S"), ("KCH", "A/S"), ("KCK", "A/S"),
  ("KCM", "A/S"), ("KCN", "A/S"), ("KCR", "A/S"), ("KCS", "A/S"), ("KCT", "A/S"),
  ("KCV", "A/S"), ("KCW", "A/S"), ("KCY", "A/S"), ("KGA", "G/*"), ("KGB", "C/G/W"),
  ("KGC", "C/G"), ("KGG", "G/W"), ("KGH", "C/G/*"), ("KGK", "C/G/W"), ("KGM", "C/G/*"),
  ("KGR", "G/W/*"), ("KGS", "C/G/W"), ("KGT", "C/G"), ("KGW", "C/G/*"), ("KGY", "C/G"),
  ("KRA", "E/G/*"), ("KTA", "L/V"), ("KTB", "F/L/V"), ("KTC", "F/V"), ("KTD", "F/L/V"),
  ("KTG", "L/V"), ("KTH", "F/L/V"), ("KTK", "F/L/V"), ("KTM", "F/L/V"), ("KTN", "F/L/V"),
  ("KTR", "L/V"), ("KTS", "F/L/V"), ("KTT", "F/V"), ("KTV", "F/L/V"), ("KTW", "F/L/V"),
  ("KTY", "F/V"), ("MAA", "K/Q"), ("MAC", "H/N"), ("MAG", "K/Q"), ("MAR", "K/Q"),
  ("MAT", "H/N"), ("MAY", "H/N"), ("MCA", "P/T"), ("MCB", "P/T"), ("MCC", "P/T"),
  ("MCD", "P/T"), ("MCG", "P/T"), ("MCH", "P/T"), ("MCK", "P/T"), ("MCM", "P/T"),
  ("MCN", "P/T"), ("MCR", "P/T"), ("MCS", "P/T"), ("MCT", "P/T"), ("MCV", "P/T"),
  ("MCW", "P/T"), ("MCY", "P/T"), ("MGB", "R/S"), ("MGC", "R/S"), ("MGD", "R/S"),
  ("MGH", "R/S"), ("MGK", "R/S"), ("MGM", "R/S"), ("MGN", "R/S"), ("MGS", "R/S"),
  ("MGT", "R/S"), ("MGV", "R/S"), ("MGW", "R/S"), ("MGY", "R/S"), ("MKA", "I/L/R"),
  ("MKG", "L/M/R"), ("MRA", "K/Q/R"), ("MRG", "K/Q/R"), ("MRR", "K/Q/R"), ("MSA", "P/R/T"),
  ("MSG", "P/R/T"), ("MSR", "P/R/T"), ("MTA", "I/L"), ("MTB", "I/L/M"), ("MTC", "I/L"),
  ("MTD", "I/L/M"), ("MTG", "L/M"), ("MTH", "I/L"), ("MTK", "I/L/M"), ("MTM", "I/L"),
  ("MTN", "I/L/M"), ("MTR", "I/L/M"), ("MTS", "I/L/M"), ("MTT", "I/L"), ("MTV", "I/L/M"),
  ("MTW", "I/L"), ("MTY", "I/L"), ("NGA", "G/R/*"), ("NGG", "G/R/W"), ("NTA", "I/L/V"),
  ("NTG", "L/M/V"), ("RAA", "E/K"), ("RAC", "D/N"), ("RAG", "E/K"), ("RAR", "E/K"),
  ("RAT", "D/N"), ("RAY", "D/N"), ("RCA", "A/T"), ("RCB", "A/T"), ("RCC", "A/T"),
  ("RCD", "A/T"), ("RCG", "A/T"), ("RCH", "A/T"), ("RCK", "A/T"), ("RCM", "A/T"),
  ("RCN", "A/T"), ("RCR", "A/T"), ("RCS", "A/T"), ("RCT", "A/T"), ("RCV", "A/T"),
  ("RCW", "A/T"), ("RCY", "A/T"), ("RGA", "G/R"), ("RGB", "G/R/S"), ("RGC", "G/S"),
  ("RGD", "G/R/S"), ("RGG", "G/R"), ("RGH", "G/R/S"), ("RGK", "G/R/S"), ("RGM", "G/R/S"),
  ("RGN", "G/R/S"), ("RGR", "G/R"), ("RGS", "G/R/S"), ("RGT", "G/S"), ("RGV", "G/R/S"),
  ("RGW", "G/R/S"), ("RGY", "G/S"), ("RTA", "I/V"), ("RTB", "I/M/V"), ("RTC", "I/V"),
  ("RTD", "I/M/V"), ("RTG", "M/V"), ("RTH", "I/V"), ("RTK", "I/M/V"), ("RTM", "I/V"),
  ("RTN", "I/M/V"), ("RTR", "I/M/V"), ("RTS", "I/M/V"), ("RTT", "I/V"), ("RTV", "I/M/V"),
  ("RTW", "I/V"), ("RTY", "I/V"), ("SAA", "E/Q"), ("SAC", "D/H"), ("SAG", "E/Q"),
  ("SAR", "E/Q"), ("SAT", "D/H"), ("SAY", "D/H"), ("SCA", "A/P"), ("SCB", "A/P"),
  ("SCC", "A/P"), ("SCD", "A/P"), ("SCG", "A/P"), ("SCH", "A/P"), ("SCK", "A/P"),
  ("SCM", "A/P"), ("SCN", "A/P"), ("SCR", "A/P"), ("SCS", "A/P"), ("SCT", "A/P"),
  ("SCV", "A/P"), ("SCW", "A/P"), ("SCY", "A/P"), ("SGA", "G/R"), ("SGB", "G/R"),
  ("SGC", "G/R"), ("SGD", "G/R"), ("SGG", "G/R"), ("SGH", "G/R"), ("SGK", "G/R"),
  ("SGM", "G/R"), ("SGN", "G/R"), ("SGR", "G/R"), ("SGS", "G/R"), ("SGT", "G/R"),
  ("SGV", "G/R"), ("SGW", "G/R"), ("SGY", "G/R"), ("STA", "L/V"), ("STB", "L/V"),
  ("STC", "L/V"), ("STD", "L/V"), ("STG", "L/V"), ("STH", "L/V"), ("STK", "L/V"),
  ("STM", "L/V"), ("STN", "L/V"), ("STR", "L/V"), ("STS", "L/V"), ("STT", "L/V"),
  ("STV", "L/V"), ("STW", "L/V"), ("STY", "L/V"), ("TAB", "Y/*"), ("TAD", "Y/*"),
  ("TAH", "Y/*"), ("TAK", "Y/*"), ("TAM", "Y/*"), ("TAN", "Y/*"), ("TAS", "Y/*"),
  ("TAV", "Y/*"), ("TAW", "Y/*"), ("TBA", "L/S/*"), ("TBC", "C/F/S"), ("TBG", "L/S/W"),
  ("TBT", "C/F/S"), ("TBY", "C/F/S"), ("TDA", "L/*"), ("TDC", "C/F/Y"), ("TDG", "L/W/*"),
  ("TDR", "L/W/*"), ("TDT", "C/F/Y"), ("TDY", "C/F/Y"), ("TGB", "C/W"), ("TGD", "C/W/*"),
  ("TGH", "C/*"), ("TGK", "C/W"), ("TGM", "C/*"), ("TGN", "C/W/*"), ("TGR", "W/*"),
  ("TGS", "C/W"), ("TGV", "C/W/*"), ("TGW", "C/*"), ("THA", "L/S/*"), ("THC", "F/S/Y"),
  ("THG", "L/S/*"), ("THR", "L/S/*"), ("THT", "F/S/Y"), ("THY", "F/S/Y"), ("TKA", "L/*"),
  ("TKC", "C/F"), ("TKG", "L/W"), ("TKR", "L/W/*"), ("TKT", "C/F"), ("TKY", "C/F"),
  ("TMA", "S/*"), ("TMB", "S/Y/*"), ("TMC", "S/Y"), ("TMD", "S/Y/*"), ("TMG", "S/*"),
  ("TMH", "S/Y/*"), ("TMK", "S/Y/*"), ("TMM", "S/Y/*"), ("TMN", "S/Y/*"), ("TMR", "S/*"),
  ("TMS", "S/Y/*"), ("TMT", "S/Y"), ("TMV", "S/Y/*"), ("TMW", "S/Y/*"), ("TMY", "S/Y"),
  ("TNA", "L/S/*"), ("TRC", "C/Y"), ("TRG", "W/*"), ("TRH", "C/Y/*"), ("TRM", "C/Y/*"),
  ("TRR", "W/*"), ("TRT", "C/Y"), ("TRW", "C/Y/*"), ("TRY", "C/Y"), ("TSA", "S/*"),
  ("TSB", "C/S/W"), ("TSC", "C/S"), ("TSG", "S/W"), ("TSH", "C/S/*"), ("TSK", "C/S/W"),
  ("TSM", "C/S/*"), ("TSR", "S/W/*"), ("TSS", "C/S/W"), ("TST", "C/S"), ("TSW", "C/S/*"),
  ("TSY", "C/S"), ("TTB", "F/L"), ("TTD", "F/L"), ("TTH", "F/L"), ("TTK", "F/L"),
  ("TTM", "F/L"), ("TTN", "F/L"), ("TTS", "F/L"), ("TTV", "F/L"), ("TTW", "F/L"),
  ("TVA", "S/*"), ("TVC", "C/S/Y"), ("TVG", "S/W/*"), ("TVR", "S/W/*"), ("TVT", "C/S/Y"),
  ("TVY", "C/S/Y"), ("TWA", "L/*"), ("TWC", "F/Y"), ("TWG", "L/*"), ("TWR", "L/*"),
  ("TWT", "F/Y"), ("TWY", "F/Y"), ("TYA", "L/S"), ("TYB", "F/L/S"), ("TYC", "F/S"),
  ("TYD", "F/L/S"), ("TYG", "L/S"), ("TYH", "F/L/S"), ("TYK", "F/L/S"), ("TYM", "F/L/S"),
  ("TYN", "F/L/S"), ("TYR", "L/S"), ("TYS", "F/L/S"), ("TYT", "F/S"), ("TYV", "F/L/S"),
  ("TYW", "F/L/S"), ("TYY", "F/S"), ("VAA", "E/K/Q"), ("VAC", "D/H/N"), ("VAG", "E/K/Q"),
  ("VAR", "E/K/Q"), ("VAT", "D/H/N"), ("VAY", "D/H/N"), ("VCA", "A/P/T"), ("VCB", "A/P/T"),
  ("VCC", "A/P/T"), ("VCD", "A/P/T"), ("VCG", "A/P/T"), ("VCH", "A/P/T"), ("VCK", "A/P/T"),
  ("VCM", "A/P/T"), ("VCN", "A/P/T"), ("VCR", "A/P/T"), ("VCS", "A/P/T"), ("VCT", "A/P/T"),
  ("VCV", "A/P/T"), ("VCW", "A/P/T"), ("VCY", "A/P/T"), ("VGA", "G/R"), ("VGB", "G/R/S"),
  ("VGC", "G/R/S"), ("VGD", "G/R/S"), ("VGG", "G/R"), ("VGH", "G/R/S"), ("VGK", "G/R/S"),
  ("VGM", "G/R/S"), ("VGN", "G/R/S"), ("VGR", "G/R"), ("VGS", "G/R/S"), ("VGT", "G/R/S"),
  ("VGV", "G/R/S"), ("VGW", "G/R/S"), ("VGY", "G/R/S"), ("VTA", "I/L/V"), ("VTC", "I/L/V"),
  ("VTG", "L/M/V"), ("VTH", "I/L/V"), ("VTM", "I/L/V"), ("VTT", "I/L/V"), ("VTW", "I/L/V"),
  ("VTY", "I/L/V"), ("WAA", "K/*"), ("WAC", "N/Y"), ("WAG", "K/*"), ("WAR", "K/*"),
  ("WAT", "N/Y"), ("WAY", "N/Y"), ("WCA", "S/T"), ("WCB", "S/T"), ("WCC", "S/T"),
  ("WCD", "S/T"), ("WCG", "S/T"), ("WCH", "S/T"), ("WCK", "S/T"), ("WCM", "S/T"),
  ("WCN", "S/T"), ("WCR", "S/T"), ("WCS", "S/T"), ("WCT", "S/T"), ("WCV", "S/T"),
  ("WCW", "S/T"), ("WCY", "S/T"), ("WGA", "R/*"), ("WGC", "C/S"), ("WGG", "R/W"),
  ("WGR", "R/W/*"), ("WGT", "C/S"), ("WGY", "C/S"), ("WRA", "K/R/*"), ("WSC", "C/S/T"),
  ("WST", "C/S/T"), ("WSY", "C/S/T"), ("WTA", "I/L"), ("WTC", "F/I"), ("WTG", "L/M"),
  ("WTH", "F/I/L"), ("WTM", "F/I/L"), ("WTR", "I/L/M"), ("WTT", "F/I"), ("WTW", "F/I/L"),
  ("WTY", "F/I"), ("YAA", "Q/*"), ("YAC", "H/Y"), ("YAG", "Q/*"), ("YAR", "Q/*"),
  ("YAT", "H/Y"), ("YAY", "H/Y"), ("YCA", "P/S"), ("YCB", "P/S"), ("YCC", "P/S"),
  ("YCD", "P/S"), ("YCG", "P/S"), ("YCH", "P/S"), ("YCK", "P/S"), ("YCM", "P/S"),
  ("YCN", "P/S"), ("YCR", "P/S"), ("YCS", "P/S"), ("YCT", "P/S"), ("YCV", "P/S"),
  ("YCW", "P/S"), ("YCY", "P/S"), ("YGA", "R/*"), ("YGB", "C/R/W"), ("YGC", "C/R"),
  ("YGG", "R/W"), ("YGH", "C/R/*"), ("YGK", "C/R/W"), ("YGM", "C/R/*"), ("YGR", "R/W/*"),
  ("YGS", "C/R/W"), ("YGT", "C/R"), ("YGW", "C/R/*"), ("YGY", "C/R"), ("YKA", "L/R/*"),
  ("YKG", "L/R/W"), ("YRA", "Q/R/*"), ("YTB", "F/L"), ("YTC", "F/L"), ("YTD", "F/L"),
  ("YTH", "F/L"), ("YTK", "F/L"), ("YTM", "F/L"), ("YTN", "F/L"), ("YTS", "F/L"),
  ("YTT", "F/L"), ("YTV", "F/L"), ("YTW", "F/L"), ("YTY", "F/L"), ("YWA", "L/Q/*"),
  ("YWG", "L/Q/*"), ("YWR", "L/Q/*"), ("YYA", "L/P/S"), ("YYG", "L/P/S"), ("YYR", "L/P/S")]

/-- The lookup `GC3.get(&codon)`: find the codon pattern in the table. -/
def GC3get (codon : List Char) : Option String :=
  (gc3Entries.find? fun e => e.1.data == codon).map (·.2)

/-- The standard genetic code on definite codons; any symbol outside A, C, G, T yields the unresolved marker. -/
def translateCodon (a b c : Char) : Char :=
  match a, b, c with
  | 'A', 'A', 'A' => 'K'
  | 'A', 'A', 'C' => 'N'
  | 'A', 'A', 'G' => 'K'
  | 'A', 'A', 'T' => 'N'
  | 'A', 'C', 'A' => 'T'
  | 'A', 'C', 'C' => 'T'
  | 'A', 'C', 'G' => 'T'
  | 'A', 'C', 'T' => 'T'
  | 'A', 'G', 'A' => 'R'
  | 'A', 'G', 'C' => 'S'
  | 'A', 'G', 'G' => 'R'
  | 'A', 'G', 'T' => 'S'
  | 'A', 'T', 'A' => 'I'
  | 'A', 'T', 'C' => 'I'
  | 'A', 'T', 'G' => 'M'
  | 'A', 'T', 'T' => 'I'
  | 'C', 'A', 'A' => 'Q'
  | 'C', 'A', 'C' => 'H'
  | 'C', 'A', 'G' => 'Q'
  | 'C', 'A', 'T' => 'H'
  | 'C', 'C', 'A' => 'P'
  | 'C', 'C', 'C' => 'P'
  | 'C', 'C', 'G' => 'P'
  | 'C', 'C', 'T' => 'P'
  | 'C', 'G', 'A' => 'R'
  | 'C', 'G', 'C' => 'R'
  | 'C', 'G', 'G' => 'R'
  | 'C', 'G', 'T' => 'R'
  | 'C', 'T', 'A' => 'L'
  | 'C', 'T', 'C' => 'L'
  | 'C', 'T', 'G' => 'L'
  | 'C', 'T', 'T' => 'L'
  | 'G', 'A', 'A' => 'E'
  | 'G', 'A', 'C' => 'D'
  | 'G', 'A', 'G' => 'E'
  | 'G', 'A', 'T' => 'D'
  | 'G', 'C', 'A' => 'A'
  | 'G', 'C', 'C' => 'A'
  | 'G', 'C', 'G' => 'A'
  | 'G', 'C', 'T' => 'A'
  | 'G', 'G', 'A' => 'G'
  | 'G', 'G', 'C' => 'G'
  | 'G', 'G', 'G' => 'G'
  | 'G', 'G', 'T' => 'G'
  | 'G', 'T', 'A' => 'V'
  | 'G', 'T', 'C' => 'V'
  | 'G', 'T', 'G' => 'V'
  | 'G', 'T', 'T' => 'V'
  | 'T', 'A', 'A' => '*'
  | 'T', 'A', 'C' => 'Y'
  | 'T', 'A', 'G' => '*'
  | 'T', 'A', 'T' => 'Y'
  | 'T', 'C', 'A' => 'S'
  | 'T', 'C', 'C' => 'S'
  | 'T', 'C', 'G' => 'S'
  | 'T', 'C', 'T' => 'S'
  | 'T', 'G', 'A' => '*'
  | 'T', 'G', 'C' => 'C'
  | 'T', 'G', 'G' => 'W'
  | 'T', 'G', 'T' => 'C'
  | 'T', 'T', 'A' => 'L'
  | 'T', 'T', 'C' => 'F'
  | 'T', 'T', 'G' => 'L'
  | 'T', 'T', 'T' => 'F'
  | _, _, _ => 'X'


/-- The definite sets an IUPAC nucleotide symbol stands for
(the 4 definite bases plus the 11 ambiguity codes of the spec's alphabet). -/
def expandBase : Char → List Char
  | 'A' => ['A']
  | 'C' => ['C']
  | 'G' => ['G']
  | 'T' => ['T']
  | 'R' => ['A', 'G']
  | 'Y' => ['C', 'T']
  | 'S' => ['C', 'G']
  | 'W' => ['A', 'T']
  | 'K' => ['G', 'T']
  | 'M' => ['A', 'C']
  | 'B' => ['C', 'G', 'T']
  | 'D' => ['A', 'G', 'T']
  | 'H' => ['A', 'C', 'T']
  | 'V' => ['A', 'C', 'G']
  | 'N' => ['A', 'C', 'G', 'T']
  | _ => []

/-- A definite base, as opposed to an ambiguity code. -/
def isDefinite (c : Char) : Bool :=
  c = 'A' || c = 'C' || c = 'G' || c = 'T'

/-- Ordering key for amino-acid letters: alphabetical, with the stop symbol
`*` sorted after every letter (the order the table's labels use). -/
def aaKey (c : Char) : Nat :=
  if c = '*' then 1000 else c.toNat

/-- Insert an amino acid into a sorted duplicate-free list, keeping it
sorted by `aaKey` and duplicate-free. -/
def insertAA (c : Char) : List Char → List Char
  | [] => [c]
  | d :: rest =>
    if c = d then d :: rest
    else if aaKey c < aaKey d then c :: d :: rest
    else d :: insertAA c rest

/-- The sorted, deduplicated list of amino acids the codon pattern `[a,b,c]`
can resolve to under the standard genetic code. -/
def patternAAs (a b c : Char) : List Char :=
  ((expandBase a).flatMap fun x =>
    (expandBase b).flatMap fun y =>
      (expandBase c).map fun z => translateCodon x y z).foldl
    (fun acc aa => insertAA aa acc) []

/-- Slash-join a list of amino-acid letters into a degeneracy label. -/
def slashJoin (l : List Char) : String :=
  String.intercalate "/" (l.map String.singleton)

/-- Modelled from the spec (§4.1, §8): what `resolve` must return on a
codon pattern — the sorted, deduplicated, slash-joined label when the
pattern is ambiguous and resolves to exactly 2 or 3 distinct amino acids,
and no match otherwise. -/
def specResolve (a b c : Char) : Option String :=
  if isDefinite a && isDefinite b && isDefinite c then none
  else
    let aas := patternAAs a b c
    if aas.length = 2 ∨ aas.length = 3 then some (slashJoin aas) else none

/-- The spec's 15-symbol IUPAC nucleotide alphabet. -/
def nucAlphabet : List Char :=
  ['A', 'B', 'C', 'D', 'G', 'H', 'K', 'M', 'N', 'R', 'S', 'T', 'V', 'W', 'Y']

/-- Decidable equality of run outcomes, for evaluating the pipeline at
concrete inputs. -/
instance : DecidableEq (Except String (List String)) :=
  fun a b =>
    match a, b with
    | .error x, .error y =>
      if h : x = y then isTrue (by rw [h]) else isFalse (by intro he; cases he; exact h rfl)
    | .ok x, .ok y =>
      if h : x = y then isTrue (by rw [h]) else isFalse (by intro he; cases he; exact h rfl)
    | .error _, .ok _ => isFalse (by intro he; cases he)
    | .ok _, .error _ => isFalse (by intro he; cases he)

/-- Modelled from the spec: the Nested output layout of §4.5
(OutputFormatter), which is absent from the source — `main.rs` implements
only the delimited layout. One object keyed by the 1-based position as a
string; each value is an inner object mapping the reference name to the
reference amino acid and every query name to its field; only positions with
at least one difference are included, matching the delimited layout's
sparsity. It is built from the same diff scan as the delimited layout. -/
def nestedOutput (gc3 : List Char → Option String) (refName : String)
    (refres : List Char) (rng : Nat × Nat) (qs : List ValidSeq) :
    Option (List (String × List (String × String))) :=
  (diffRows gc3 refres rng qs).map fun rows =>
    rows.map fun r =>
      (toString r.position,
        (refName, String.singleton r.ref_aa) :: (qs.map (·.name)).zip r.fields)

/-- Modelled from the spec (§2.3, §4.1): the table the AmbiguityCodonTable
must equal — for every codon pattern over the IUPAC alphabet, in
lexicographic order, the entry `(pattern, label)` whenever `specResolve`
produces a label. -/
def expectedEntries : List (String × String) :=
  nucAlphabet.flatMap fun a =>
    nucAlphabet.flatMap fun b =>
      nucAlphabet.filterMap fun c =>
        (specResolve a b c).map fun l => (String.mk [a, b, c], l)

lemma position_eq_none_iff (p : Char → Bool) (l : List Char) :
    position p l = none ↔ ∀ m : Nat, l[m]?.map p ≠ some true := by
  induction l with
  | nil => simp [position]
  | cons c t ih =>
    by_cases hc : p c
    · simp only [position, hc, if_pos]
      constructor
      · intro h; cases h
      · intro h; exact absurd (by simp [hc]) (h 0)
    · simp only [position, hc, if_neg, Bool.false_eq_true, not_false_iff, Option.map_eq_none']
      rw [ih]
      constructor
      · intro h m
        cases m with
        | zero => simp [hc]
        | succ m => simpa using h m
      · intro h m
        simpa using h (m + 1)

lemma position_eq_some_iff (p : Char → Bool) (l : List Char) (n : Nat) :
    position p l = some n ↔
      l[n]?.map p = some true ∧ ∀ m, m < n → l[m]?.map p = some false := by
  induction l generalizing n with
  | nil => simp [position]
  | cons c t ih =>
    by_cases hc : p c
    · simp only [position, hc, if_pos]
      cases n with
      | zero => simp [hc]
      | succ n =>
        constructor
        · intro h; cases h
        · rintro ⟨-, hall⟩
          have h0 := hall 0 (Nat.succ_pos n)
          simp [hc] at h0
    · simp only [position, hc, if_neg, Bool.false_eq_true, not_false_iff]
      cases n with
      | zero =>
        constructor
        · intro h
          rcases Option.map_eq_some'.mp h with ⟨j, _, hj0⟩
          exact absurd hj0 (Nat.succ_ne_zero j)
        · rintro ⟨h1, -⟩
          rw [List.getElem?_cons_zero] at h1
          simp [hc] at h1
      | succ n =>
        constructor
        · intro h
          rcases Option.map_eq_some'.mp h with ⟨j, hj, hjn⟩
          have hjn' : j = n := Nat.succ.inj hjn
          subst hjn'
          rcases (ih j).mp hj with ⟨h1, h2⟩
          refine ⟨by simpa using h1, ?_⟩
          intro m hm
          cases m with
          | zero => simp [hc]
          | succ m => simpa using h2 m (Nat.lt_of_succ_lt_succ hm)
        · rintro ⟨h1, h2⟩
          have ht : position p t = some n := by
            apply (ih n).mpr
            refine ⟨by simpa using h1, ?_⟩
            intro m hm
            simpa using h2 (m + 1) (Nat.succ_lt_succ hm)
          simp [ht]

lemma rposition_map_true (p : Char → Bool) (l : List Char) (j : Nat)
    (h : rposition p l = some j) : l[j]?.map p = some true := by
  induction l generalizing j with
  | nil => cases h
  | cons c t ih =>
    simp only [rposition] at h
    cases hr : rposition p t with
    | some k =>
      rw [hr] at h
      cases h
      simpa using ih k hr
    | none =>
      rw [hr] at h
      by_cases hc : p c
      · rw [if_pos hc] at h
        cases h
        simp [hc]
      · rw [if_neg hc] at h
        cases h

lemma rposition_eq_none_iff (p : Char → Bool) (l : List Char) :
    rposition p l = none ↔ ∀ m : Nat, l[m]?.map p ≠ some true := by
  induction l with
  | nil => simp [rposition]
  | cons c t ih =>
    simp only [rposition]
    cases hr : rposition p t with
    | some j =>
      constructor
      · intro h; cases h
      · intro h
        exact absurd (by simpa using rposition_map_true p t j hr) (h (j + 1))
    | none =>
      by_cases hc : p c
      · rw [if_pos hc]
        constructor
        · intro h; cases h
        · intro h; exact absurd (by simp [hc]) (h 0)
      · rw [if_neg hc]
        constructor
        · intro _ m
          cases m with
          | zero => simp [hc]
          | succ m => simpa using (ih.mp hr) m
        · intro _; rfl

lemma rposition_eq_some_iff (p : Char → Bool) (l : List Char) (n : Nat) :
    rposition p l = some n ↔
      l[n]?.map p = some true ∧ ∀ m, n < m → l[m]?.map p ≠ some true := by
  induction l generalizing n with
  | nil => simp [rposition]
  | cons c t ih =>
    simp only [rposition]
    cases hr : rposition p t with
    | some j =>
      constructor
      · intro h
        cases h
        rcases (ih j).mp hr with ⟨h1, h2⟩
        refine ⟨by simpa using h1, ?_⟩
        intro m hm
        cases m with
        | zero => exact absurd hm (Nat.not_lt_zero _)
        | succ m => simpa using h2 m (Nat.lt_of_succ_lt_succ hm)
      · rintro ⟨h1, h2⟩
        cases n with
        | zero =>
          exact absurd (by simpa using rposition_map_true p t j hr)
            (h2 (j + 1) (Nat.succ_pos j))
        | succ n =>
          have ht : rposition p t = some n := by
            apply (ih n).mpr
            refine ⟨by simpa using h1, ?_⟩
            intro m hm
            simpa using h2 (m + 1) (Nat.succ_lt_succ hm)
          rw [hr] at ht
          cases ht
          rfl
    | none =>
      have hnone := (rposition_eq_none_iff p t).mp hr
      by_cases hc : p c
      · rw [if_pos hc]
        cases n with
        | zero =>
          simp only [List.getElem?_cons_zero, Option.map_some', hc, true_and]
          constructor
          · intro _ m hm
            cases m with
            | zero => exact absurd hm (Nat.lt_irrefl 0)
            | succ m => simpa using hnone m
          · intro _; trivial
        | succ n =>
          constructor
          · intro h; cases h
          · rintro ⟨h1, -⟩
            exact absurd (by simpa using h1) (hnone n)
      · rw [if_neg hc]
        constructor
        · intro h; cases h
        · rintro ⟨h1, -⟩
          cases n with
          | zero => simp [hc] at h1
          | succ n => exact absurd (by simpa using h1) (hnone n)

/-- C3: with the restriction flag off the resolver returns the full span
`[0, length)`; with the flag on and at least one residue that is neither `X`
nor `-` it returns `[first, last+1)` for the first and last such indices; on
`"XX-ACDX--"` it returns `[3, 6)`; and every returned range satisfies
`start ≤ end ≤ length`. -/
theorem get_valid_range_spec :
    (∀ aa : List Char, get_valid_range aa false = some (0, aa.length)) ∧
    (∀ aa : List Char,
      (∃ i : Nat, (aa[i]?.map resolvable) = some true) →
      ∃ s e : Nat, get_valid_range aa true = some (s, e + 1) ∧
        (aa[s]?.map resolvable) = some true ∧
        (∀ m, m < s → (aa[m]?.map resolvable) = some false) ∧
        (aa[e]?.map resolvable) = some true ∧
        (∀ m, e < m → (aa[m]?.map resolvable) ≠ some true)) ∧
    get_valid_range "XX-ACDX--".data true = some (3, 6) ∧
    (∀ (aa : List Char) (r : Bool) (s e : Nat),
      get_valid_range aa r = some (s, e) → s ≤ e ∧ e ≤ aa.length) := by
  refine ⟨?_, ?_, by decide, ?_⟩
  · intro aa
    simp [get_valid_range]
  · intro aa ⟨i, hi⟩
    have hpos : position resolvable aa ≠ none := fun hn =>
      absurd hi ((position_eq_none_iff resolvable aa).mp hn i)
    have hrpos : rposition resolvable aa ≠ none := fun hn =>
      absurd hi ((rposition_eq_none_iff resolvable aa).mp hn i)
    rcases Option.ne_none_iff_exists'.mp hpos with ⟨s, hs⟩
    rcases Option.ne_none_iff_exists'.mp hrpos with ⟨e, he⟩
    rcases (position_eq_some_iff resolvable aa s).mp hs with ⟨hs1, hs2⟩
    rcases (rposition_eq_some_iff resolvable aa e).mp he with ⟨he1, he2⟩
    exact ⟨s, e, by simp [get_valid_range, hs, he], hs1, hs2, he1, he2⟩
  · intro aa r s e h
    cases r with
    | false =>
      simp only [get_valid_range, Bool.false_eq_true, if_neg, Option.some.injEq,
        Prod.mk.injEq, not_false_iff] at h
      omega
    | true =>
      simp only [get_valid_range, if_pos] at h
      cases hp : position resolvable aa with
      | none => rw [hp] at h; cases h
      | some s0 =>
        cases hq : rposition resolvable aa with
        | none => rw [hp, hq] at h; cases h
        | some e0 =>
          rw [hp, hq] at h
          simp only [Option.some.injEq, Prod.mk.injEq] at h
          obtain ⟨rfl, rfl⟩ := h
          rcases (position_eq_some_iff resolvable aa s0).mp hp with ⟨-, hs2⟩
          rcases (rposition_eq_some_iff resolvable aa e0).mp hq with ⟨he1, -⟩
          have helen : e0 < aa.length := by
            by_contra hlen
            rw [List.getElem?_eq_none (Nat.le_of_not_lt hlen)] at he1
            cases he1
          have hse : s0 ≤ e0 := by
            by_contra hlt
            have := hs2 e0 (Nat.lt_of_not_le hlt)
            rw [this] at he1
            cases he1
          omega

/-- Witness for C3 at the spec's own example `"XX-ACDX--"`. -/
theorem get_valid_range_spec_witness :
    (∃ s e : Nat, get_valid_range "XX-ACDX--".data true = some (s, e + 1)) ∧
    3 ≤ 6 ∧ 6 ≤ "XX-ACDX--".data.length := by
  obtain ⟨s, e, h, -, -, -, -⟩ :=
    get_valid_range_spec.2.1 "XX-ACDX--".data ⟨3, by decide⟩
  exact ⟨⟨s, e, h⟩,
    get_valid_range_spec.2.2.2 "XX-ACDX--".data true 3 6 get_valid_range_spec.2.2.1⟩

lemma mapOption_eq_none_of_mem {α β : Type} (f : α → Option β) {l : List α} {x : α}
    (hx : x ∈ l) (hfx : f x = none) : mapOption f l = none := by
  induction l with
  | nil => cases hx
  | cons a t ih =>
    rcases List.mem_cons.mp hx with rfl | hxt
    · simp [mapOption, hfx]
    · rw [mapOption, ih hxt]
      cases f a <;> rfl

lemma get_valid_range_none_of_unresolvable {aa : List Char}
    (h : ∀ c ∈ aa, c = 'X' ∨ c = '-') : get_valid_range aa true = none := by
  have hpos : position resolvable aa = none := by
    rw [position_eq_none_iff]
    intro m hm
    rcases Option.map_eq_some'.mp hm with ⟨c, hc, hpc⟩
    rcases h c (List.getElem?_mem hc) with rfl | rfl <;> simp [resolvable] at hpc
  simp [get_valid_range, hpos]

lemma replace_all_bytes_unresolvable {rs : List Char}
    (h : ∀ c ∈ rs, c = 'X' ∨ c = '-') :
    ∀ c ∈ replace_all_bytes '~' 'X' rs, c = 'X' ∨ c = '-' := by
  intro c hc
  rcases List.mem_map.mp hc with ⟨d, hd, rfl⟩
  rcases h d hd with rfl | rfl <;> simp

/-- C6: with restriction on, an input sequence (reference or query) whose
residues are all `X`/`-` makes the whole run fail with the
`EmptySequenceError` diagnostic of `get_valid_range`; no table output is
produced and no per-sequence skip occurs. -/
theorem empty_sequence_is_fatal (gc3 : List Char → Option String)
    (unixLineEndings : Bool) (records : List RawRecord) (r : RawRecord)
    (hmem : r ∈ records) (hempty : ∀ c ∈ r.residues, c = 'X' ∨ c = '-') :
    runAPD gc3 true unixLineEndings records =
      .error "Sequence doesn't contain valid data for comparison." ∧
    ∀ out, runAPD gc3 true unixLineEndings records ≠ .ok out := by
  have hrange : get_valid_range (replace_all_bytes '~' 'X' r.residues) true = none :=
    get_valid_range_none_of_unresolvable (replace_all_bytes_unresolvable hempty)
  have hmain : runAPD gc3 true unixLineEndings records =
      .error "Sequence doesn't contain valid data for comparison." := by
    match records, hmem with
    | refRec :: rest, hmem =>
      rcases List.mem_cons.mp hmem with rfl | hrest
      · rw [runAPD, hrange]
      · have hq : mkValidSeq true r = none := by
          rw [mkValidSeq, hrange]
          rfl
        rw [runAPD]
        rw [mapOption_eq_none_of_mem (mkValidSeq true) hrest hq]
        cases get_valid_range (replace_all_bytes '~' 'X' refRec.residues) true <;> rfl
  exact ⟨hmain, fun out hout => by rw [hmain] at hout; cases hout⟩

/-- Witness for C6: a run over a reference `MAD` and an all-gap/unresolved
query `X-` aborts with the diagnostic. -/
theorem empty_sequence_is_fatal_witness :
    runAPD GC3get true true
      [⟨"ref", ['M', 'A', 'D'], ['A', 'T', 'G', 'G', 'C', 'A', 'G', 'A', 'T']⟩,
       ⟨"q", ['X', '-'], ['N', 'N', 'N', '-', '-', '-']⟩] =
      .error "Sequence doesn't contain valid data for comparison." :=
  (empty_sequence_is_fatal GC3get true _
    ⟨"q", ['X', '-'], ['N', 'N', 'N', '-', '-', '-']⟩
    (by simp) (by decide)).1

/-- C7: if no reference record is available at startup the run terminates
fatally with a diagnostic and produces no output at all. -/
theorem no_reference_is_fatal :
    (∀ (gc3 : List Char → Option String) (restrict unixLineEndings : Bool),
      runAPD gc3 restrict unixLineEndings [] = .error "No first record available!") ∧
    (∀ (gc3 : List Char → Option String) (restrict unixLineEndings : Bool)
      (out : List String), runAPD gc3 restrict unixLineEndings [] ≠ .ok out) := by
  refine ⟨fun _ _ _ => rfl, fun gc3 restrict unixLineEndings out h => ?_⟩
  cases h

/-- Witness for C7 at a concrete configuration. -/
theorem no_reference_is_fatal_witness :
    runAPD GC3get true false [] = .error "No first record available!" ∧
    runAPD GC3get true false [] ≠ .ok [] :=
  ⟨no_reference_is_fatal.1 GC3get true false, no_reference_is_fatal.2 GC3get true false []⟩

/-- C9: the diff pipeline is deterministic — it is a pure function of the
immutable registry and configuration, so two runs over equal inputs yield
byte-identical output. -/
theorem run_deterministic (gc3 : List Char → Option String)
    (restrict₁ restrict₂ unix₁ unix₂ : Bool) (records₁ records₂ : List RawRecord)
    (hr : restrict₁ = restrict₂) (hu : unix₁ = unix₂) (hrec : records₁ = records₂) :
    runAPD gc3 restrict₁ unix₁ records₁ = runAPD gc3 restrict₂ unix₂ records₂ := by
  rw [hr, hu, hrec]

/-- Witness for C9: two runs over the same registry agree. -/
theorem run_deterministic_witness :
    runAPD GC3get false true [⟨"r", ['M', 'A', 'D'], ['A', 'T', 'G']⟩] =
      runAPD GC3get false true [⟨"r", ['M', 'A', 'D'], ['A', 'T', 'G']⟩] :=
  run_deterministic GC3get false false true true _ _ rfl rfl rfl

lemma getElem?_isSome_of_lt {l : List Char} {i : Nat} (h : i < l.length) :
    l[i]?.isSome = true := by
  simp [List.getElem?_eq_getElem h]

lemma queryEntry_isSome (gc3 : List Char → Option String) (a : Char) (i : Nat)
    (q : ValidSeq) (h1 : i < q.residues.length)
    (h2 : i * 3 + 2 < q.codons.length) :
    (queryEntry gc3 a i q).isSome = true := by
  rcases Option.isSome_iff_exists.mp (getElem?_isSome_of_lt h1) with ⟨aa, haa⟩
  rcases Option.isSome_iff_exists.mp
    (getElem?_isSome_of_lt (show i * 3 < q.codons.length by omega)) with ⟨c0, hc0⟩
  rcases Option.isSome_iff_exists.mp
    (getElem?_isSome_of_lt (show i * 3 + 1 < q.codons.length by omega)) with ⟨c1, hc1⟩
  rcases Option.isSome_iff_exists.mp (getElem?_isSome_of_lt h2) with ⟨c2, hc2⟩
  rw [queryEntry, haa, hc0, hc1, hc2]
  dsimp only
  split <;> rfl

lemma mapOption_isSome {α β : Type} (f : α → Option β) (l : List α)
    (h : ∀ x ∈ l, (f x).isSome = true) : (mapOption f l).isSome = true := by
  induction l with
  | nil => rfl
  | cons a t ih =>
    rcases Option.isSome_iff_exists.mp (h a (List.mem_cons_self a t)) with ⟨b, hb⟩
    rcases Option.isSome_iff_exists.mp
      (ih fun x hx => h x (List.mem_cons_of_mem a hx)) with ⟨bs, hbs⟩
    rw [mapOption, hb, hbs]
    rfl

/-- C10: under the precondition that every query's residues cover the length
of the reference's valid range and its codons are at least 3 times its
residues, every index access of the diff scan is in bounds and the scan is
total; without the precondition an access can be out of range (a query with
no residues makes the scan fail). -/
theorem scan_total_under_length_precondition :
    (∀ (gc3 : List Char → Option String) (refres : List Char) (rng : Nat × Nat)
       (qs : List ValidSeq),
      (∀ q ∈ qs, rng.2 - rng.1 ≤ q.residues.length ∧
        3 * q.residues.length ≤ q.codons.length) →
      (diffRows gc3 refres rng qs).isSome = true) ∧
    diffRows GC3get ['A'] (0, 1) [⟨"q", [], [], (0, 0)⟩] = none := by
  constructor
  · intro gc3 refres rng qs hpre
    rw [diffRows, Option.isSome_map']
    apply mapOption_isSome
    intro p hp
    rw [Option.isSome_map']
    apply mapOption_isSome
    intro q hq
    rcases hpre q hq with ⟨hres, hcod⟩
    have hplen := (List.mem_enum hp).1
    have hslice : ((refres.drop rng.1).take (rng.2 - rng.1)).length ≤ rng.2 - rng.1 := by
      rw [List.length_take]
      omega
    have hi : p.1 < q.residues.length := by omega
    exact queryEntry_isSome gc3 p.2 p.1 q hi (by omega)
  · decide

/-- Witness for C10 at a concrete registry satisfying the precondition. -/
theorem scan_total_under_length_precondition_witness :
    (diffRows GC3get ['M', 'A', 'D'] (0, 3)
      [⟨"q", ['M', 'A', 'E'], ['A', 'T', 'G', 'G', 'C', 'A', 'G', 'A', 'A'], (0, 3)⟩]).isSome
      = true :=
  scan_total_under_length_precondition.1 GC3get ['M', 'A', 'D'] (0, 3)
    [⟨"q", ['M', 'A', 'E'], ['A', 'T', 'G', 'G', 'C', 'A', 'G', 'A', 'A'], (0, 3)⟩]
    (by decide)

/-- C1: the claim fails on the code. With restriction on, the reference
residues `XAD` have valid range `[1, 3)`, and the query `AAD` agrees with
the reference at every index of that range (indices 1 and 2), so by the
claim every query field is empty and no Diff row may be emitted; but the
scan indexes the query by the offset into the reference's sliced range
(`residues[i]` for `i` starting at 0 at the slice start, line 120) instead
of the reference index, compares `reference[1+i]` with `query[i]`, and
emits a spurious row at position 2 with field `A`. The spec's §8 example
(reference `MAD`, query `MAE`, no restriction, one row `3,D,E`) is also
checked: the claim holds whenever the reference's valid range starts at 0. -/
theorem scan_misindexes_restricted_reference :
    runAPD GC3get true true
      [⟨"ref", ['X', 'A', 'D'], ['N', 'N', 'N', 'G', 'C', 'T', 'G', 'A', 'T']⟩,
       ⟨"q", ['A', 'A', 'D'], ['G', 'C', 'A', 'G', 'C', 'A', 'G', 'A', 'T']⟩] =
      .ok [",ref,q\n", "2,D,\"A\"\n"] ∧
    get_valid_range ['X', 'A', 'D'] true = some (1, 3) ∧
    get_valid_range ['A', 'A', 'D'] true = some (0, 3) ∧
    (['X', 'A', 'D'] : List Char)[1]? = (['A', 'A', 'D'] : List Char)[1]? ∧
    (['X', 'A', 'D'] : List Char)[2]? = (['A', 'A', 'D'] : List Char)[2]? ∧
    runAPD GC3get false true
      [⟨"ref", ['M', 'A', 'D'], ['A', 'T', 'G', 'G', 'C', 'A', 'G', 'A', 'T']⟩,
       ⟨"q", ['M', 'A', 'E'], ['A', 'T', 'G', 'G', 'C', 'A', 'G', 'A', 'A']⟩] =
      .ok [",ref,q\n", "3,D,\"E\"\n"] := by
  decide

set_option maxRecDepth 2000 in
lemma gc3_labels_all_nonempty : gc3Entries.all (fun x => !(x.2 == "")) = true := by decide

lemma gc3_labels_nonempty : ∀ e ∈ gc3Entries, ¬e.2 = "" := by
  intro e he
  have := List.all_eq_true.mp gc3_labels_all_nonempty e he
  simpa using this

lemma singleton_ne_empty (c : Char) : String.singleton c ≠ "" := by
  intro h
  have := congrArg String.data h
  simp [String.singleton] at this

lemma GC3get_ne_empty (codon : List Char) (s : String) (h : GC3get codon = some s) :
    s ≠ "" := by
  rw [GC3get] at h
  rcases Option.map_eq_some'.mp h with ⟨e, he, rfl⟩
  exact gc3_labels_nonempty e (List.mem_of_find?_eq_some he)

lemma displayToken_ne_empty (aa : Char) (codon : List Char) :
    displayToken GC3get aa codon ≠ "" := by
  rw [displayToken]
  split
  · intro h
    have := congrArg String.data h
    simp at this
  · split
    · cases hg : GC3get codon with
      | some d => exact GC3get_ne_empty codon d hg
      | none => exact singleton_ne_empty _
    · exact singleton_ne_empty _

lemma queryEntry_eq_ite (gc3 : List Char → Option String) (ref_aa : Char) (i : Nat)
    (q : ValidSeq) (aa c0 c1 c2 : Char)
    (haa : q.residues[i]? = some aa) (hc0 : q.codons[i * 3]? = some c0)
    (hc1 : q.codons[i * 3 + 1]? = some c1) (hc2 : q.codons[i * 3 + 2]? = some c2) :
    queryEntry gc3 ref_aa i q =
      if q.valid_range.1 ≤ i ∧ i < q.valid_range.2 ∧ ref_aa ≠ aa then
        some (displayToken gc3 aa [c0, c1, c2])
      else some "" := by
  rw [queryEntry, haa, hc0, hc1, hc2]

lemma queryEntry_empty_iff (ref_aa : Char) (i : Nat) (q : ValidSeq)
    (aa c0 c1 c2 : Char)
    (haa : q.residues[i]? = some aa) (hc0 : q.codons[i * 3]? = some c0)
    (hc1 : q.codons[i * 3 + 1]? = some c1) (hc2 : q.codons[i * 3 + 2]? = some c2) :
    queryEntry GC3get ref_aa i q = some "" ↔
      ¬(q.valid_range.1 ≤ i ∧ i < q.valid_range.2) ∨ ref_aa = aa := by
  rw [queryEntry_eq_ite GC3get ref_aa i q aa c0 c1 c2 haa hc0 hc1 hc2]
  split
  · rename_i hcond
    constructor
    · intro habs
      exact absurd (Option.some.inj habs) (displayToken_ne_empty aa [c0, c1, c2])
    · intro hrhs
      rcases hrhs with hout | heq
      · exact absurd ⟨hcond.1, hcond.2.1⟩ hout
      · exact absurd heq hcond.2.2
  · rename_i hcond
    constructor
    · intro _
      by_cases hin : q.valid_range.1 ≤ i ∧ i < q.valid_range.2
      · right
        by_contra hne
        exact hcond ⟨hin.1, hin.2, hne⟩
      · exact Or.inl hin
    · intro _
      rfl

/-- C2: at a detected difference the displayed token is `del` for a gap,
the table's degeneracy label for an `X` whose aligned codon (the 3
nucleotides at offset `3*i`) is registered and the literal `X` when it is
not, and the residue letter otherwise; and whether a difference is detected
at a position depends only on the valid range and the translated residues,
never on the codons or the table (the empty-field characterization mentions
neither, and varying the codons of a query with the same residues and range
leaves detection unchanged). -/
theorem token_refinement_spec :
    ∀ (ref_aa : Char) (i : Nat) (q q' : ValidSeq) (aa c0 c1 c2 c0' c1' c2' : Char),
      q.residues[i]? = some aa →
      q.codons[i * 3]? = some c0 →
      q.codons[i * 3 + 1]? = some c1 →
      q.codons[i * 3 + 2]? = some c2 →
      q'.residues = q.residues →
      q'.valid_range = q.valid_range →
      q'.codons[i * 3]? = some c0' →
      q'.codons[i * 3 + 1]? = some c1' →
      q'.codons[i * 3 + 2]? = some c2' →
      ((q.valid_range.1 ≤ i ∧ i < q.valid_range.2) → ref_aa ≠ aa →
        queryEntry GC3get ref_aa i q = some
          (if aa = '-' then "del"
           else if aa = 'X' then (GC3get [c0, c1, c2]).getD "X"
           else String.singleton aa)) ∧
      (queryEntry GC3get ref_aa i q = some "" ↔
        ¬(q.valid_range.1 ≤ i ∧ i < q.valid_range.2) ∨ ref_aa = aa) ∧
      (queryEntry GC3get ref_aa i q = some "" ↔
        queryEntry GC3get ref_aa i q' = some "") := by
  intro ref_aa i q q' aa c0 c1 c2 c0' c1' c2' haa hc0 hc1 hc2 hres hvr hc0' hc1' hc2'
  have haa' : q'.residues[i]? = some aa := by rw [hres]; exact haa
  have hempty := queryEntry_empty_iff ref_aa i q aa c0 c1 c2 haa hc0 hc1 hc2
  have hempty' := queryEntry_empty_iff ref_aa i q' aa c0' c1' c2' haa' hc0' hc1' hc2'
  refine ⟨?_, hempty, ?_⟩
  · intro hin hne
    rw [queryEntry_eq_ite GC3get ref_aa i q aa c0 c1 c2 haa hc0 hc1 hc2,
      if_pos ⟨hin.1, hin.2, hne⟩]
    congr 1
    rw [displayToken]
    split
    · rfl
    · split
      · rename_i hX
        subst hX
        cases hg : GC3get [c0, c1, c2] <;> rfl
      · rfl
  · rw [hempty, hempty', hvr]

/-- Witness for C2: reference residue `D` against query residue `E` at
position index 2 displays the letter `E`, for two codon variants. -/
theorem token_refinement_spec_witness :
    queryEntry GC3get 'D' 2
      ⟨"q", ['M', 'A', 'E'], ['A', 'T', 'G', 'G', 'C', 'A', 'G', 'A', 'A'], (0, 3)⟩ =
      some "E" := by
  have h := (token_refinement_spec 'D' 2
    ⟨"q", ['M', 'A', 'E'], ['A', 'T', 'G', 'G', 'C', 'A', 'G', 'A', 'A'], (0, 3)⟩
    ⟨"q2", ['M', 'A', 'E'], ['A', 'T', 'G', 'G', 'C', 'T', 'G', 'A', 'G'], (0, 3)⟩
    'E' 'G' 'A' 'A' 'G' 'A' 'G' (by decide) (by decide) (by decide) (by decide)
    (by decide) (by decide) (by decide) (by decide) (by decide)).1
    (by decide) (by decide)
  rw [h]
  decide

lemma foldl_comma_go (names : List String) (pre acc : String) :
    names.foldl (fun b n => b ++ "," ++ n) (pre ++ acc) =
      pre ++ String.intercalate.go acc "," names := by
  induction names generalizing acc with
  | nil => rfl
  | cons n t ih =>
    show t.foldl _ (pre ++ acc ++ "," ++ n) = pre ++ String.intercalate.go (acc ++ "," ++ n) "," t
    rw [String.append_assoc, String.append_assoc, ← String.append_assoc acc]
    exact ih (acc ++ "," ++ n)

lemma headerLine_eq_intercalate (refName : String) (names : List String) :
    headerLine refName names = "," ++ String.intercalate "," (refName :: names) :=
  foldl_comma_go names "," refName

/-- C5: the header lists the reference name then every query name in input
order, comma separated; every emitted row of a successful run is the 1-based
position, a comma, the reference amino acid, then one comma-prefixed field
per query where a differing token is quoted and an empty field is
delimiter-only. The delimiter of the source is the literal `,` (the spec's
default). -/
theorem delimited_output_format :
    (∀ (refName : String) (names : List String),
      headerLine refName names = "," ++ String.intercalate "," (refName :: names)) ∧
    (∀ f : String, f ≠ "" → renderField f = "," ++ "\"" ++ f ++ "\"") ∧
    renderField "" = "," ∧
    (∀ (gc3 : List Char → Option String) (restrict unix : Bool)
       (records : List RawRecord) (lines : List String),
      runAPD gc3 restrict unix records = .ok lines →
      ∃ (refRec : RawRecord) (rest : List RawRecord) (queries : List ValidSeq)
        (refRange : Nat × Nat) (rows : List DiffRow),
        records = refRec :: rest ∧
        mapOption (mkValidSeq restrict) rest = some queries ∧
        get_valid_range (replace_all_bytes '~' 'X' refRec.residues) restrict = some refRange ∧
        diffRows gc3 (replace_all_bytes '~' 'X' refRec.residues) refRange queries = some rows ∧
        lines =
          (headerLine refRec.name (queries.map (·.name)) ++ (if unix then "" else "\r") ++ "\n")
            :: rows.map (fun r =>
              toString r.position ++ "," ++ String.singleton r.ref_aa ++
                String.join (r.fields.map renderField) ++
                (if unix then "" else "\r") ++ "\n")) := by
  refine ⟨headerLine_eq_intercalate, ?_, rfl, ?_⟩
  · intro f hf
    rw [renderField, if_neg hf]
  · intro gc3 restrict unix records lines hok
    match records with
    | [] => cases hok
    | refRec :: rest =>
      rw [runAPD] at hok
      cases hr : get_valid_range (replace_all_bytes '~' 'X' refRec.residues) restrict with
      | none => rw [hr] at hok; cases hok
      | some refRange =>
        rw [hr] at hok
        dsimp only at hok
        cases hm : mapOption (mkValidSeq restrict) rest with
        | none => rw [hm] at hok; cases hok
        | some queries =>
          rw [hm] at hok
          dsimp only at hok
          cases hd : diffRows gc3 (replace_all_bytes '~' 'X' refRec.residues) refRange queries with
          | none => rw [hd] at hok; cases hok
          | some rows =>
            rw [hd] at hok
            dsimp only at hok
            refine ⟨refRec, rest, queries, refRange, rows, rfl, hm, hr, hd, ?_⟩
            cases hok
            rfl

/-- Witness for C5 on the spec's §8 example (reference `MAD`, query `MAE`). -/
theorem delimited_output_format_witness :
    (headerLine "ref" ["q"] = "," ++ String.intercalate "," ["ref", "q"]) ∧
    renderField "E" = "," ++ "\"" ++ "E" ++ "\"" ∧
    ∃ (refRec : RawRecord) (rest : List RawRecord) (queries : List ValidSeq)
      (refRange : Nat × Nat) (rows : List DiffRow),
      ([⟨"ref", ['M', 'A', 'D'], ['A', 'T', 'G', 'G', 'C', 'A', 'G', 'A', 'T']⟩,
        ⟨"q", ['M', 'A', 'E'], ['A', 'T', 'G', 'G', 'C', 'A', 'G', 'A', 'A']⟩] :
          List RawRecord) = refRec :: rest ∧
      mapOption (mkValidSeq false) rest = some queries ∧
      get_valid_range (replace_all_bytes '~' 'X' refRec.residues) false = some refRange ∧
      diffRows GC3get (replace_all_bytes '~' 'X' refRec.residues) refRange queries = some rows ∧
      [",ref,q\n", "3,D,\"E\"\n"] =
        (headerLine refRec.name (queries.map (·.name)) ++ (if true then "" else "\r") ++ "\n")
          :: rows.map (fun r =>
            toString r.position ++ "," ++ String.singleton r.ref_aa ++
              String.join (r.fields.map renderField) ++
              (if true then "" else "\r") ++ "\n") :=
  ⟨delimited_output_format.1 "ref" ["q"],
   delimited_output_format.2.1 "E" (by decide),
   delimited_output_format.2.2.2 GC3get false true
     [⟨"ref", ['M', 'A', 'D'], ['A', 'T', 'G', 'G', 'C', 'A', 'G', 'A', 'T']⟩,
      ⟨"q", ['M', 'A', 'E'], ['A', 'T', 'G', 'G', 'C', 'A', 'G', 'A', 'A']⟩]
     [",ref,q\n", "3,D,\"E\"\n"] (by decide)⟩

lemma mapOption_length {α β : Type} {f : α → Option β} {l : List α} {bs : List β}
    (h : mapOption f l = some bs) : bs.length = l.length := by
  induction l generalizing bs with
  | nil => cases h; rfl
  | cons a t ih =>
    rw [mapOption] at h
    cases hfa : f a with
    | none => rw [hfa] at h; cases h
    | some b =>
      rw [hfa] at h
      cases hft : mapOption f t with
      | none => rw [hft] at h; cases h
      | some bt =>
        rw [hft] at h
        cases h
        simp [ih hft]

lemma mapOption_mem {α β : Type} {f : α → Option β} {l : List α} {bs : List β}
    (h : mapOption f l = some bs) {b : β} (hb : b ∈ bs) : ∃ a ∈ l, f a = some b := by
  induction l generalizing bs with
  | nil => cases h; cases hb
  | cons a t ih =>
    rw [mapOption] at h
    cases hfa : f a with
    | none => rw [hfa] at h; cases h
    | some b0 =>
      rw [hfa] at h
      cases hft : mapOption f t with
      | none => rw [hft] at h; cases h
      | some bt =>
        rw [hft] at h
        cases h
        rcases List.mem_cons.mp hb with rfl | hbt
        · exact ⟨a, List.mem_cons_self a t, hfa⟩
        · rcases ih hft hbt with ⟨x, hx, hfx⟩
          exact ⟨x, List.mem_cons_of_mem a hx, hfx⟩

lemma diffRows_fields_length {gc3 : List Char → Option String} {refres : List Char}
    {rng : Nat × Nat} {qs : List ValidSeq} {rows : List DiffRow}
    (hd : diffRows gc3 refres rng qs = some rows) :
    (∀ r ∈ rows, r.fields.any (· ≠ "") = true) ∧
    (∀ r ∈ rows, r.fields.length = qs.length) := by
  rw [diffRows] at hd
  rcases Option.map_eq_some'.mp hd with ⟨allRows, hall, rfl⟩
  constructor
  · intro r hr
    exact (List.mem_filter.mp hr).2
  · intro r hr
    have hmem : r ∈ allRows := (List.mem_filter.mp hr).1
    rcases mapOption_mem hall hmem with ⟨p, -, hp⟩
    rcases Option.map_eq_some'.mp hp with ⟨fields, hf, rfl⟩
    exact mapOption_length hf

/-- C8: the Nested layout (modelled from the spec, see `nestedOutput`) is one
object keyed by the 1-based position as a string; each inner object's keys
are the reference name followed by every query name in input order (the
reference mapped to its amino acid, each query to its field); and exactly
the positions with at least one difference are included — the entries are in
bijection with the emitted Diff rows, each of which has a non-empty field. -/
theorem nested_output_layout (gc3 : List Char → Option String) (refName : String)
    (refres : List Char) (rng : Nat × Nat) (qs : List ValidSeq) (rows : List DiffRow)
    (hd : diffRows gc3 refres rng qs = some rows) :
    ∃ entries,
      nestedOutput gc3 refName refres rng qs = some entries ∧
      entries = rows.map (fun r =>
        (toString r.position,
          (refName, String.singleton r.ref_aa) :: (qs.map (·.name)).zip r.fields)) ∧
      (∀ r ∈ rows, r.fields.any (· ≠ "") = true) ∧
      (∀ e ∈ entries, e.2.map Prod.fst = refName :: qs.map (·.name)) := by
  refine ⟨_, by rw [nestedOutput, hd]; rfl, rfl, (diffRows_fields_length hd).1, ?_⟩
  intro e he
  rcases List.mem_map.mp he with ⟨r, hr, rfl⟩
  have hlen : r.fields.length = qs.length := (diffRows_fields_length hd).2 r hr
  simp only [List.map_cons]
  congr 1
  apply List.map_fst_zip
  simp [hlen]

/-- Witness for C8 on the spec's §8 example. -/
theorem nested_output_layout_witness :
    ∃ entries,
      nestedOutput GC3get "ref" ['M', 'A', 'D'] (0, 3)
        [⟨"q", ['M', 'A', 'E'], ['A', 'T', 'G', 'G', 'C', 'A', 'G', 'A', 'A'], (0, 3)⟩] =
        some entries ∧
      entries.map Prod.fst = ["3"] := by
  obtain ⟨entries, h1, h2, -, -⟩ := nested_output_layout GC3get "ref" ['M', 'A', 'D'] (0, 3)
    [⟨"q", ['M', 'A', 'E'], ['A', 'T', 'G', 'G', 'C', 'A', 'G', 'A', 'A'], (0, 3)⟩]
    [⟨3, 'D', ["E"]⟩] (by decide)
  exact ⟨entries, h1, by rw [h2]; decide⟩

set_option maxRecDepth 100000 in
set_option maxHeartbeats 4000000 in
lemma gc3_matches_expected : expectedEntries = gc3Entries := by decide

lemma mem_expected_of_specResolve {a b c : Char} (ha : a ∈ nucAlphabet)
    (hb : b ∈ nucAlphabet) (hc : c ∈ nucAlphabet) {l : String}
    (h : specResolve a b c = some l) :
    (String.mk [a, b, c], l) ∈ expectedEntries := by
  rw [expectedEntries]
  exact List.mem_flatMap.mpr ⟨a, ha, List.mem_flatMap.mpr ⟨b, hb,
    List.mem_filterMap.mpr ⟨c, hc, by rw [h]; rfl⟩⟩⟩

lemma expected_entry_spec {e : String × String} (he : e ∈ expectedEntries) :
    ∃ a b c, e.1 = String.mk [a, b, c] ∧ specResolve a b c = some e.2 := by
  rw [expectedEntries] at he
  rcases List.mem_flatMap.mp he with ⟨a, -, he2⟩
  rcases List.mem_flatMap.mp he2 with ⟨b, -, he3⟩
  rcases List.mem_filterMap.mp he3 with ⟨c, -, hfc⟩
  rcases Option.map_eq_some'.mp hfc with ⟨l, hl, hle⟩
  cases hle
  exact ⟨a, b, c, rfl, hl⟩

lemma GC3get_eq_specResolve (a b c : Char) (ha : a ∈ nucAlphabet)
    (hb : b ∈ nucAlphabet) (hc : c ∈ nucAlphabet) :
    GC3get [a, b, c] = specResolve a b c := by
  cases hs : specResolve a b c with
  | some l =>
    have hmem : (String.mk [a, b, c], l) ∈ gc3Entries := by
      rw [← gc3_matches_expected]
      exact mem_expected_of_specResolve ha hb hc hs
    rw [GC3get]
    cases hf : gc3Entries.find? (fun e => e.1.data == [a, b, c]) with
    | none =>
      exfalso
      exact absurd (by simp) (List.find?_eq_none.mp hf _ hmem)
    | some e =>
      have hpe : (e.1.data == [a, b, c]) = true :=
        @List.find?_some _ (fun e => e.1.data == [a, b, c]) e gc3Entries hf
      have he : e ∈ expectedEntries := by
        rw [gc3_matches_expected]
        exact List.mem_of_find?_eq_some hf
      rcases expected_entry_spec he with ⟨a', b', c', he1, hs'⟩
      have hdata : e.1.data = [a, b, c] := by simpa using hpe
      rw [he1] at hdata
      have hlist : [a', b', c'] = [a, b, c] := hdata
      obtain ⟨rfl, rfl, rfl⟩ : a' = a ∧ b' = b ∧ c' = c := by simpa using hlist
      rw [hs] at hs'
      rw [Option.map_some', Option.some.inj hs']
  | none =>
    rw [GC3get]
    cases hf : gc3Entries.find? (fun e => e.1.data == [a, b, c]) with
    | none => rfl
    | some e =>
      exfalso
      have hpe : (e.1.data == [a, b, c]) = true :=
        @List.find?_some _ (fun e => e.1.data == [a, b, c]) e gc3Entries hf
      have he : e ∈ expectedEntries := by
        rw [gc3_matches_expected]
        exact List.mem_of_find?_eq_some hf
      rcases expected_entry_spec he with ⟨a', b', c', he1, hs'⟩
      have hdata : e.1.data = [a, b, c] := by simpa using hpe
      rw [he1] at hdata
      have hlist : [a', b', c'] = [a, b, c] := hdata
      obtain ⟨rfl, rfl, rfl⟩ : a' = a ∧ b' = b ∧ c' = c := by simpa using hlist
      rw [hs] at hs'
      cases hs'

/-- C4: over the spec's 15-symbol IUPAC alphabet, every ambiguous codon
pattern (one containing at least one ambiguity code) that resolves to
exactly 2 or 3 distinct amino acids under the standard genetic code is
mapped by the table to the sorted, deduplicated, slash-joined label of those
amino acids; every unambiguous codon, and every pattern resolving to more
than 3 distinct amino acids, has no table entry. -/
theorem ambiguity_table_matches_genetic_code :
    ∀ a ∈ nucAlphabet, ∀ b ∈ nucAlphabet, ∀ c ∈ nucAlphabet,
      ((isDefinite a && isDefinite b && isDefinite c) = false →
        ((patternAAs a b c).length = 2 ∨ (patternAAs a b c).length = 3) →
        GC3get [a, b, c] = some (slashJoin (patternAAs a b c))) ∧
      ((isDefinite a && isDefinite b && isDefinite c) = true →
        GC3get [a, b, c] = none) ∧
      (3 < (patternAAs a b c).length → GC3get [a, b, c] = none) := by
  intro a ha b hb c hc
  have key := GC3get_eq_specResolve a b c ha hb hc
  refine ⟨?_, ?_, ?_⟩
  · intro hamb hlen
    rw [key, specResolve]
    simp only [hamb, Bool.false_eq_true, if_false]
    rw [if_pos hlen]
  · intro hdef
    rw [key, specResolve]
    simp only [hdef, if_true]
  · intro hgt
    have hne : ¬((patternAAs a b c).length = 2 ∨ (patternAAs a b c).length = 3) := by
      omega
    rw [key, specResolve]
    split
    · rfl
    · rw [if_neg hne]

/-- Witness for C4 at the spec's example pattern `AAB`, which resolves to
lysine or asparagine. -/
theorem ambiguity_table_matches_genetic_code_witness :
    GC3get ['A', 'A', 'B'] = some "K/N" := by
  have h := (ambiguity_table_matches_genetic_code 'A' (by decide) 'A' (by decide)
    'B' (by decide)).1 (by decide) (by decide)
  rw [h]
  decide
